import Mathlib

/-!
Verification development for the Romanian shipping-address validator
(src/services/address_service.py, v2 2025-09-16).

The Python module is shallowly embedded below: every pure helper of the
source file (normalize, normalize_zip, lemmatize_ro_token, get_core_words,
extract_street_components, the house-number range parsers, number_in_range,
seq_similarity) is translated into an executable Lean definition, and the
orchestrator validate_address_for_order is translated into a function from
a reference-data snapshot (a list of RomaniaAddress rows, standing for the
SQLAlchemy queries, which are plain filters of the table) and an order
record to either a Python-level error or an updated order record.

Modelling conventions:
  - Python str is Lean String; character-level work is done on List Char
    (one element per code point, matching Python's len/slicing).
  - Python float arithmetic (Jaccard ratios, SequenceMatcher ratios, the
    0.15 boost, the 0.9 zip penalty) is modelled with exact rationals; the
    comparisons performed by the source are far from the float rounding
    error of these small quantities.
  - unicodedata.normalize("NFD", ·) followed by encode("ascii","ignore")
    is modelled by a character table covering the repertoire the module is
    written for (ASCII plus the Romanian diacritics that appear in the
    source's own alias tables); every other non-ASCII character is dropped,
    exactly as ascii/ignore drops characters with no ASCII decomposition.
  - Recursions that are not structural are written with an explicit fuel
    argument (always called with enough fuel, see the wrapper definitions)
    so that every definition reduces inside the kernel.
-/

namespace AddressService

/-- Whitespace characters matched by Python's regex class \s and str.strip
on the ASCII strings this module manipulates. -/
def isPySpace (c : Char) : Bool :=
  c = ' ' || c = '\t' || c = '\n' || c = '\r' || c = Char.ofNat 11 || c = Char.ofNat 12

/-- Lowercase ASCII letter test, Python's regex class [a-z]. -/
def isLowerAlpha (c : Char) : Bool :=
  'a' ≤ c && c ≤ 'z'

/-- Word character for Python's regex class \w: ASCII alphanumerics, the
underscore, and (approximating unicode word characters, which in this
module's data are Romanian letters) any non-ASCII character. -/
def isWordChar (c : Char) : Bool :=
  c.isAlphanum || c = '_' || decide (127 < c.toNat)

/-- Python str.lower restricted to the repertoire of this module: ASCII
letters and the uppercase Romanian diacritics of the source's alias
tables; every other character is left unchanged. -/
def pyLowerChar (c : Char) : Char :=
  if 'A' ≤ c && c ≤ 'Z' then Char.ofNat (c.toNat + 32)
  else if c = 'Ă' then 'ă' else if c = 'Â' then 'â' else if c = 'Î' then 'î'
  else if c = 'Ș' then 'ș' else if c = 'Ț' then 'ț'
  else if c = 'Ş' then 'ş' else if c = 'Ţ' then 'ţ'
  else c

/-- Python str.lower over a whole string. -/
def pyLower (s : String) : String :=
  String.mk (s.data.map pyLowerChar)

/-- Python str.strip over a character list. -/
def pyStripList (l : List Char) : List Char :=
  ((l.dropWhile isPySpace).reverse.dropWhile isPySpace).reverse

/-- Python str.strip over a string. -/
def pyStrip (s : String) : String :=
  String.mk (pyStripList s.data)

/-- NFD decomposition followed by encode("ascii","ignore"): an ASCII
character maps to itself, a Romanian (or common accented) lowercase letter
maps to its ASCII base letter, and every other character is dropped.  The
table covers the repertoire of the module (the source's own constants use
exactly the lowercase diacritics listed here). -/
def nfdAsciiChar (c : Char) : Option Char :=
  if c.toNat < 128 then some c
  else if c = 'ă' || c = 'â' || c = 'á' || c = 'à' then some 'a'
  else if c = 'î' || c = 'í' then some 'i'
  else if c = 'ș' || c = 'ş' then some 's'
  else if c = 'ț' || c = 'ţ' then some 't'
  else if c = 'é' || c = 'è' || c = 'ê' then some 'e'
  else none

/-- Fueled splitter behind pyWords: splits a character list at runs of
whitespace, producing the non-empty fields in order (Python str.split()).
The fuel only serves structural recursion; pyWords supplies enough. -/
def wordsF : Nat → List Char → List (List Char)
  | 0, _ => []
  | fuel + 1, l =>
    match l.dropWhile isPySpace with
    | [] => []
    | c :: cs =>
      (c :: cs.takeWhile (fun x => !isPySpace x))
        :: wordsF fuel (cs.dropWhile (fun x => !isPySpace x))

/-- Python str.split() with no argument: the whitespace-separated words. -/
def pyWords (l : List Char) : List (List Char) :=
  wordsF (l.length + 1) l

/-- Join of a word list with single spaces, Python " ".join(words). -/
def joinSp : List (List Char) → List Char
  | [] => []
  | w :: ws => w ++ (match ws with | [] => [] | _ :: _ => ' ' :: joinSp ws)

/-- Collapse of internal whitespace runs to single spaces together with
strip: the composition re.sub(whitespace-run, " ", s) followed by strip()
that ends the source's normalize. -/
def collapseWs (l : List Char) : List Char :=
  joinSp (pyWords l)

/-- Contract of the source's normalize (address_service.py lines 99-106):
lower + strip + NFD/ascii-ignore diacritic removal + whitespace collapse.
The leading strip of the source is subsumed by the final collapse/strip,
which removes boundary whitespace runs entirely. -/
def normalize (s : String) : String :=
  String.mk (collapseWs ((s.data.map pyLowerChar).filterMap nfdAsciiChar))

/-- Python-level normalize of an optional value: normalize(None) = "". -/
def normalizeOpt (s : Option String) : String :=
  match s with
  | none => ""
  | some s => normalize s

/-- Digits of a numeral list read as a number, Python int() on a digit
string. -/
def natOfDigits (l : List Char) : Nat :=
  l.foldl (fun n c => n * 10 + (c.toNat - 48)) 0

/-- Contract of the source's normalize_zip (lines 109-119): keep only the
digits and zero-pad on the left to six digits. -/
def normalize_zip (z : Option String) : String :=
  match z with
  | none => ""
  | some z =>
    let ds := z.data.filter Char.isDigit
    if ds.isEmpty then ""
    else if ds.length < 6 then String.mk (List.replicate (6 - ds.length) '0' ++ ds)
    else String.mk ds

/-- Keywords of the locker shortcut, LOCKER_KEYWORDS of the source. -/
def LOCKER_KEYWORDS : List String :=
  ["easybox", "locker", "parcel locker", "packeta", "fanbox", "pachetomat",
   "parcelshop", "inpost", "omniva", "pickup point", "pick-up point", "automatul",
   "automat colet"]

/-- Street-type alias table PREFIX_ALIASES of the source, flattened in the
iteration order of the dict comprehension that builds PREFIX_MAP: each pair
maps a surface alias to its canonical street-type identifier. -/
def PREFIX_MAP : List (String × String) :=
  [("strada", "strada"), ("stradă", "strada"), ("str", "strada"), ("st", "strada"),
   ("str.", "strada"), ("st.", "strada"), ("străzii", "strada"),
   ("sosea", "sosea"), ("șosea", "sosea"), ("sos", "sosea"), ("șos", "sosea"),
   ("soseaua", "sosea"), ("șoseaua", "sosea"), ("șos.", "sosea"), ("sos.", "sosea"),
   ("intrare", "intrare"), ("intrarea", "intrare"), ("intr", "intrare"),
   ("int", "intrare"), ("intr.", "intrare"),
   ("bulevard", "bulevard"), ("bulevardul", "bulevard"), ("bd", "bulevard"),
   ("bdul", "bulevard"), ("b-dul", "bulevard"), ("bvd", "bulevard"),
   ("blvd", "bulevard"), ("bld", "bulevard"), ("bld.", "bulevard"),
   ("bdl", "bulevard"), ("bdl.", "bulevard"), ("b-ul", "bulevard"), ("b-ul.", "bulevard"),
   ("piata", "piata"), ("piața", "piata"), ("p-ta", "piata"), ("p-ța", "piata"),
   ("pta", "piata"), ("pța", "piata"), ("p-ta.", "piata"), ("p-ța.", "piata"),
   ("alee", "alee"), ("aleea", "alee"), ("al", "alee"), ("al.", "alee"), ("aleei", "alee"),
   ("cale", "cale"), ("calea", "cale"), ("cal", "cale"), ("cal.", "cale"),
   ("piateta", "piateta"), ("piațetă", "piateta"), ("ptet", "piateta"),
   ("pțet", "piateta"), ("ptt", "piateta"), ("pțt", "piateta"),
   ("splai", "splai"), ("splaiul", "splai"), ("spl", "splai"), ("spl.", "splai"),
   ("drum", "drum"), ("drumul", "drum"), ("dr", "drum"), ("drm", "drum"),
   ("dr.", "drum"), ("drm.", "drum"),
   ("prelungire", "prelungire"), ("prelungirea", "prelungire"), ("prel", "prelungire"),
   ("prel.", "prelungire"), ("prelung", "prelungire"),
   ("pasaj", "pasaj"), ("pasajul", "pasaj"), ("pas", "pasaj"), ("psj", "pasaj"),
   ("psj.", "pasaj"),
   ("ulita", "ulita"), ("ulița", "ulita"), ("ul", "ulita"), ("ul.", "ulita"),
   ("fundatura", "fundatura"), ("fundătura", "fundatura"), ("fund", "fundatura"),
   ("fdt", "fundatura"), ("fund.", "fundatura"), ("fdt.", "fundatura"),
   ("cartier", "cartier"), ("cart", "cartier"), ("cart.", "cartier"),
   ("varianta", "varianta"), ("variantă", "varianta"), ("var", "varianta"),
   ("var.", "varianta"),
   ("platou", "platou"),
   ("parc", "parc"), ("parcul", "parc"),
   ("pod", "pod"), ("podul", "pod"),
   ("canal", "canal"),
   ("scuar", "scuar"),
   ("poteca", "poteca"), ("potecă", "poteca")]

/-- Canonical street-type identifiers, CANONICAL_PREFIXES of the source
(the keys of PREFIX_ALIASES). -/
def CANONICAL_PREFIXES : List String :=
  ["strada", "sosea", "intrare", "bulevard", "piata", "alee", "cale", "piateta",
   "splai", "drum", "prelungire", "pasaj", "ulita", "fundatura", "cartier",
   "varianta", "platou", "parc", "pod", "canal", "scuar", "poteca"]

/-- Honorific titles dropped from street phrases, TITLES_TO_IGNORE. -/
def TITLES_TO_IGNORE : List String :=
  ["dr", "arh", "arhitect", "mat", "prof", "ing", "dr.", "arh.", "prof.", "ing."]

/-- Administrative and building noise words, NOISE_WORDS of the source. -/
def NOISE_WORDS : List String :=
  ["sector", "sectorul", "bucuresti", "bucurești", "judetul", "jud", "localitatea",
   "oras", "oraș", "comuna", "sat", "romania", "românia", "tara", "ţara",
   "cnas", "spclep", "spclep-ul", "casa", "salon", "business", "park", "iride",
   "cladirea", "clădirea", "ghiseul", "ghișeul", "birou", "biroul", "hala", "hala.",
   "corp", "corpul",
   "bl", "bloc", "sc", "scara", "ap", "apartament", "et", "etaj", "cam", "cam.",
   "lot", "complex",
   "po", "box", "po box"]

/-- First-match lookup in an alias list, Python dict lookup for a dict with
pairwise distinct keys (PREFIX_MAP's surface aliases are distinct). -/
def lookupAssoc (m : List (String × String)) (k : String) : Option String :=
  match m.find? (fun p => p.1 = k) with
  | some p => some p.2
  | none => none

/-- Python w.endswith(suf), via the character lists. -/
def pyEndsWith (w suf : String) : Bool :=
  suf.data.isSuffixOf w.data

/-- Python w[: -len(suf)], dropping a suffix of known length. -/
def pyDropSuffix (w suf : String) : String :=
  String.mk (w.data.take (w.data.length - suf.data.length))

/-- Guard of the source's suffix stripping: the suffix matches and the
token is longer than the suffix by strictly more than two characters. -/
def suffixHit (w suf : String) : Bool :=
  pyEndsWith w suf && decide (suf.data.length + 2 < w.data.length)

/-- Romanian inflectional suffixes in the exact tuple order of the source
(lemmatize_ro_token, line 137); note the tuple is not sorted by length and
contains a duplicate, both faithfully reproduced. -/
def roSuffixes : List String :=
  ["ilor", "ului", "iilor", "ilor", "urilor", "ul", "le", "ei", "ii", "lor", "a", "i"]

/-- First-match suffix stripper: the source's for-loop with early return. -/
def stripFirstSuffix : List String → String → String
  | [], w => w
  | suf :: rest, w => if suffixHit w suf then pyDropSuffix w suf else stripFirstSuffix rest w

/-- Contract of the source's lemmatize_ro_token (lines 135-140). -/
def lemmatize_ro_token (w : String) : String :=
  stripFirstSuffix roSuffixes w

/-- Initials pattern of get_core_words: Python re.fullmatch of a single
lowercase letter, an optional period, an optional second letter and an
optional final period (all full-string forms of that regex). -/
def isInitialsPattern (l : List Char) : Bool :=
  match l with
  | [a] => isLowerAlpha a
  | [a, b] => isLowerAlpha a && (b = '.' || isLowerAlpha b)
  | [a, b, c] =>
    isLowerAlpha a &&
      ((b = '.' && (isLowerAlpha c || c = '.')) || (isLowerAlpha b && c = '.'))
  | [a, b, c, d] => isLowerAlpha a && b = '.' && isLowerAlpha c && d = '.'
  | _ => false

/-- Membership in a word list, Python's set/dict membership on strings. -/
def memberStr (l : List String) (w : String) : Bool :=
  l.contains w

/-- Contract of the source's get_core_words (lines 143-160): normalize,
canonicalize the first token, drop titles, street-type tokens and noise,
drop short tokens and initials, lemmatize the rest, and re-add the
canonical street-type of the first token when there is one. -/
def get_core_words (s : String) : Finset String :=
  let words := (pyWords (normalize s).data).map String.mk
  match words with
  | [] => (∅ : Finset String)
  | w0 :: _ =>
    let first := (lookupAssoc PREFIX_MAP w0).getD w0
    let core := words.foldl (fun acc w =>
      if memberStr TITLES_TO_IGNORE w || memberStr CANONICAL_PREFIXES w
          || (lookupAssoc PREFIX_MAP w).isSome || memberStr NOISE_WORDS w then acc
      else if w.data.length ≤ 2 || isInitialsPattern w.data then acc
      else insert (lemmatize_ro_token w) acc) (∅ : Finset String)
    if memberStr CANONICAL_PREFIXES first then insert first core else core

/-- Keyword alternatives of the first DELIMITERS pattern of the source
(building/unit markers that cut the street-name candidate). -/
def delimKeywords : List (List Char) :=
  ["nr", "no", "numar", "nr.", "no.", "bl", "bloc", "sc", "scara", "ap", "apart",
   "apartament", "et", "etaj", "complex", "lot", "cam", "cam.", "po box"].map String.data

/-- Boundary test after a matched keyword: Python's \b placed after the
last keyword character requires a word/non-word transition there, so a
keyword ending in a word character must be followed by a non-word
character (or the end), and a keyword ending in "." must be followed by a
word character. -/
def boundaryAfter (s : List Char) (kw : List Char) (p : Nat) : Bool :=
  let e := p + kw.length
  match kw.getLast? with
  | none => false
  | some last =>
    if isWordChar last then
      decide (s.length ≤ e) || !isWordChar (s.getD e ' ')
    else
      decide (e < s.length) && isWordChar (s.getD e ' ')

/-- Occurrence of some delimiter keyword at position p of s, with the word
boundaries of the source's regex alternation. -/
def kwMatchAt (s : List Char) (p : Nat) : Bool :=
  (decide (p = 0) || !isWordChar (s.getD (p - 1) ' ')) &&
    delimKeywords.any (fun kw =>
      kw.isPrefixOf (s.drop p) && boundaryAfter s kw p)

/-- Position of the first regex match of the source's _first_delim_pos
(lines 163-169): the minimum over the keyword pattern and the comma
pattern, defaulting to the length of the string. -/
def firstDelimPos (s : List Char) : Nat :=
  let kwPos := ((List.range s.length).find? (fun p => kwMatchAt s p)).getD s.length
  let commaPos := ((List.range s.length).find? (fun p => s.getD p ' ' = ',')).getD s.length
  min kwPos commaPos

/-- Dash characters of the source's number regexes: hyphen, en dash and
em dash. -/
def isDash (c : Char) : Bool :=
  c = '-' || c = '–' || c = '—'

/-- Greedy parse of the house-number regex starting at a digit: digits,
optional whitespace, one optional lowercase letter, optional digits, and
an optional range continuation (whitespace, dash, whitespace, digits,
whitespace, optional letter, optional digits).  Returns the matched text,
as Python's re with this pattern does (the optional group is dropped when
it cannot complete; no other backtracking changes the match). -/
def parseNumAt (l : List Char) : List Char :=
  let d1 := l.takeWhile Char.isDigit
  let r1 := l.drop d1.length
  let ws1 := r1.takeWhile isPySpace
  let r2 := r1.drop ws1.length
  let letterPart := match r2 with
    | c :: _ => if isLowerAlpha c then [c] else []
    | [] => []
  let r3 := r2.drop letterPart.length
  let d2 := r3.takeWhile Char.isDigit
  let r4 := r3.drop d2.length
  let base := d1 ++ ws1 ++ letterPart ++ d2
  let ws2 := r4.takeWhile isPySpace
  let r5 := r4.drop ws2.length
  match r5 with
  | c :: rest =>
    if isDash c then
      let ws3 := rest.takeWhile isPySpace
      let r6 := rest.drop ws3.length
      let d3 := r6.takeWhile Char.isDigit
      if d3.isEmpty then base
      else
        let r7 := r6.drop d3.length
        let ws4 := r7.takeWhile isPySpace
        let r8 := r7.drop ws4.length
        let letter2 := match r8 with
          | c2 :: _ => if isLowerAlpha c2 then [c2] else []
          | [] => []
        let r9 := r8.drop letter2.length
        let d4 := r9.takeWhile Char.isDigit
        base ++ ws2 ++ [c] ++ ws3 ++ d3 ++ ws4 ++ letter2 ++ d4
    else base
  | [] => base

/-- Leftmost match of the source's free-text house-number regex (line
191): the pattern starts with a digit, so the leftmost match starts at
the first digit of the string. -/
def searchNumber (s : List Char) : Option (List Char) :=
  match s.findIdx? Char.isDigit with
  | none => none
  | some d => some (parseNumAt (s.drop d))

/-- Anchored match of the source's number-first regex (line 198),
digits-whitespace-letter-digits followed by mandatory whitespace and the
rest of the line; returns (group 1, group 2).  The case analysis follows
the regex engine's backtracking: with the whitespace run maximal the
letter branch is tried first, and on failure the engine gives back one
whitespace character so that the mandatory whitespace can match. -/
def numFirstMatch (l : List Char) : Option (List Char × List Char) :=
  let ds := l.takeWhile Char.isDigit
  if ds.isEmpty then none else
  let rest := l.drop ds.length
  let ws := rest.takeWhile isPySpace
  let r2 := rest.drop ws.length
  let withLetter : Option (List Char × List Char) :=
    match r2 with
    | c :: r3 =>
      if isLowerAlpha c then
        let d2 := r3.takeWhile Char.isDigit
        let r4 := r3.drop d2.length
        let ws2 := r4.takeWhile isPySpace
        if ws2.isEmpty then none
        else some (ds ++ ws ++ [c] ++ d2, r4.drop ws2.length)
      else none
    | [] => none
  match withLetter with
  | some x => some x
  | none => if ws.isEmpty then none else some (ds ++ ws.dropLast, r2)

/-- Result record of extract_street_components: the street dictionary of
the source with its three keys. -/
structure StreetComponents where
  street : String
  number : Option String
  has_number : Bool
deriving DecidableEq, Repr

/-- Whitespace removal re.sub(whitespace-run, "", t) used on matched
number tokens. -/
def stripAllWs (l : List Char) : List Char :=
  l.filter (fun c => !isPySpace c)

/-- Contract of the source's extract_street_components (lines 179-210):
lower and strip the raw line, cut the street-name candidate at the first
delimiter, search the whole line for a house-number token, handle the
number-first form, and drop noise words from the street name. -/
def extract_street_components (address : Option String) : StreetComponents :=
  let s := pyStripList (pyLower (address.getD "")).data
  let cut := firstDelimPos s
  let street_part := pyStripList (s.take cut)
  let numTok := searchNumber s
  let number0 : Option String := numTok.map (fun t => String.mk (stripAllWs t))
  let has0 : Bool := numTok.isSome
  match numFirstMatch street_part with
  | some g =>
    let street_name := g.2
    if number0.isNone then
      mkComponents street_name (some (String.mk (stripAllWs g.1))) true
    else
      mkComponents street_name number0 has0
  | none => mkComponents street_part number0 has0
where
  /-- Final assembly: words of the street name minus NOISE_WORDS, joined
  by single spaces. -/
  mkComponents (street_name : List Char) (number : Option String) (hasNum : Bool) :
      StreetComponents :=
    let cleaned := (pyWords street_name).filter
      (fun w => !memberStr NOISE_WORDS (String.mk w))
    { street := String.mk (joinSp cleaned), number := number, has_number := hasNum }

/-- Python truthiness of an optional string: None and "" are falsy. -/
def optTruthy (s : Option String) : Bool :=
  match s with
  | none => false
  | some s => s ≠ ""

/-- Fueled replacement of every occurrence of a pattern, scanning left to
right without overlap: Python str.replace.  The wrapper pyReplace supplies
enough fuel. -/
def replaceF (rep : List Char) : Nat → List Char → List Char → List Char
  | 0, _, l => l
  | _ + 1, _, [] => []
  | fuel + 1, pat, c :: cs =>
    if pat ≠ [] && pat.isPrefixOf (c :: cs) then
      rep ++ replaceF rep fuel pat ((c :: cs).drop pat.length)
    else c :: replaceF rep fuel pat cs

/-- Python s.replace(pat, rep) on strings. -/
def pyReplace (s pat rep : String) : String :=
  String.mk (replaceF rep.data (s.data.length + 1) pat.data s.data)

/-- Contract of the source's _parse_house_number (lines 213-220): leading
digits and one optional following lowercase letter of the lowered token. -/
def parseHouseNumber (num : Option String) : Option Nat × Option Char :=
  match num with
  | none => (none, none)
  | some n =>
    if n = "" then (none, none)
    else
      let l := (pyLower n).data
      let ds := l.takeWhile Char.isDigit
      if ds.isEmpty then (none, none)
      else
        let rest := l.drop ds.length
        let letter := match rest with
          | c :: _ => if isLowerAlpha c then some c else none
          | [] => none
        (some (natOfDigits ds), letter)

/-- Parsed nomenclature range fragment: (low, high, open_high) of the
source, with Python None as Option.none. -/
abbrev DbRange := Option Nat × Option Nat × Bool

/-- Contract of the source's _parse_db_range_one (lines 223-254):
normalize, remove the literal nr/no tokens, squeeze whitespace, unify
dashes, then read a single number, a closed range or an open T-range.
int() of a string with no digit raises ValueError, which the source
catches by returning the empty triple. -/
def parseDbRangeOne (fragment : String) : DbRange :=
  if fragment = "" then (none, none, false)
  else
    let t0 := normalize fragment
    let t1 := pyReplace (pyReplace (pyReplace (pyReplace t0 "nr." " ") "nr" " ") "no." " ") "no" " "
    let t2 := stripAllWs (pyStripList t1.data)
    let t := t2.map (fun c => if c = '–' || c = '—' then '-' else c)
    if t.contains '-' then
      let a := t.takeWhile (fun c => c ≠ '-')
      let b := (t.drop a.length).drop 1
      let adigits := a.filter Char.isDigit
      if adigits.isEmpty then (none, none, false)
      else
        let low := natOfDigits adigits
        if b = ['t'] || b = ['T'] then (some low, none, true)
        else
          let bdigits := b.filter Char.isDigit
          if bdigits.isEmpty then (none, none, false)
          else (some low, some (natOfDigits bdigits), false)
    else
      match t.dropWhile (fun c => !c.isDigit) with
      | [] => (none, none, false)
      | l =>
        let v := natOfDigits (l.takeWhile Char.isDigit)
        (some v, some v, false)

/-- Fueled splitter for re.split on runs of semicolons and commas: fields
between separator runs, keeping empty boundary fields exactly as re.split
does. -/
def splitRunsF (p : Char → Bool) : Nat → List Char → List (List Char)
  | 0, _ => []
  | fuel + 1, l =>
    let f := l.takeWhile (fun c => !p c)
    let r := l.drop f.length
    match r with
    | [] => [f]
    | _ :: _ => f :: splitRunsF p fuel (r.dropWhile p)

/-- Python re.split(r"[;,]+", s). -/
def splitSemicolonComma (s : String) : List String :=
  (splitRunsF (fun c => c = ';' || c = ',') (s.data.length + 1) s.data).map String.mk

/-- Contract of the source's _parse_db_ranges (lines 257-267).  The
source filters each parsed fragment with any(x is not None for x in r),
but the third tuple component is a bool and never None, so the filter
keeps every fragment; the model reproduces that by keeping them all. -/
def parse_db_ranges (db_numar : Option String) : List DbRange :=
  match db_numar with
  | none => []
  | some dn =>
    if dn = "" then []
    else (splitSemicolonComma dn).map parseDbRangeOne

/-- Contract of the source's number_in_range (lines 270-292): some true
when the numeric base of the order token falls in any range (open ranges
match any base at or above their low end), some false otherwise, none when
either side cannot be parsed at all. -/
def number_in_range (order_num db_numar : Option String) : Option Bool :=
  if !optTruthy order_num || !optTruthy db_numar then none
  else
    match (parseHouseNumber order_num).1 with
    | none => none
    | some base =>
      let ranges := parse_db_ranges db_numar
      if ranges.isEmpty then none
      else if ranges.any (fun r =>
          match r with
          | (some low, high, openHigh) =>
            (openHigh && decide (low ≤ base)) ||
              (decide (low ≤ base) && decide (base ≤ high.getD low))
          | (none, _, _) => false) then
        some true
      else some false

/-- Length of the common prefix of two character lists. -/
def commonPrefixLen : List Char → List Char → Nat
  | a :: as, b :: bs => if a = b then commonPrefixLen as bs + 1 else 0
  | _, _ => 0

/-- difflib's find_longest_match over whole sequences (no junk, and the
strings compared by this module are far below the 200-character autojunk
threshold): the longest block a[i:i+k] = b[j:j+k], with ties resolved
towards the smallest i and then the smallest j, and (0, 0, 0) when there
is no non-empty common block. -/
def longestMatch (a b : List Char) : Nat × Nat × Nat :=
  (List.range a.length).foldl (fun best i =>
    (List.range b.length).foldl (fun best j =>
      let k := commonPrefixLen (a.drop i) (b.drop j)
      if best.2.2 < k then (i, j, k) else best) best) (0, 0, 0)

/-- Fueled total of difflib's get_matching_blocks sizes: recursively take
the longest match and recurse on both sides.  matchesTotal supplies enough
fuel (each recursive call strictly shrinks the pieces). -/
def matchesTotalF : Nat → List Char → List Char → Nat
  | 0, _, _ => 0
  | fuel + 1, a, b =>
    let m := longestMatch a b
    if m.2.2 = 0 then 0
    else
      matchesTotalF fuel (a.take m.1) (b.take m.2.1) + m.2.2 +
        matchesTotalF fuel (a.drop (m.1 + m.2.2)) (b.drop (m.2.1 + m.2.2))

/-- Total number of matched characters of the two sequences in difflib's
block decomposition. -/
def matchesTotal (a b : List Char) : Nat :=
  matchesTotalF (a.length + b.length + 1) a b

/-- difflib's SequenceMatcher.ratio: 2M / (len(a) + len(b)) as an exact
rational, and 1 for two empty sequences (difflib's _calculate_ratio). -/
def matcherRatioQ (a b : List Char) : ℚ :=
  let t := a.length + b.length
  if t = 0 then 1 else (2 * matchesTotal a b : ℚ) / (t : ℚ)

/-- Contract of the source's seq_similarity (lines 295-297): the ratio of
the normalized forms of the two strings. -/
def seq_similarity (a b : String) : ℚ :=
  matcherRatioQ (normalize a).data (normalize b).data

/-- Modelled from the spec: models.RomaniaAddress is not part of src/ (the
models module holds only ORM declarations); the source's header comment
and spec §3 list its columns judet, localitate, tip_artera, nume_strada,
numar, cod_postal.  All except the county are nullable text columns. -/
structure RomaniaAddress where
  judet : String
  localitate : Option String
  tip_artera : Option String
  nume_strada : Option String
  numar : Option String
  cod_postal : Option String
deriving DecidableEq, Repr

/-- Modelled from the spec: models.Order is not part of src/; the source's
header comment and spec §6 list the shipping fields read by the validator
and the three result fields it writes (address_status, address_score,
address_validation_errors). -/
structure Order where
  name : String
  shipping_address1 : Option String
  shipping_address2 : Option String
  shipping_zip : Option String
  shipping_province : Option String
  shipping_city : Option String
  address_status : Option String
  address_score : Option Int
  address_validation_errors : List String
deriving DecidableEq, Repr

/-- Python-level runtime error escaping the validator.  The only one the
source can raise on the paths modelled here is the NameError produced by
evaluating the undefined name at line 461. -/
inductive PyErr where
  | nameError
deriving DecidableEq, Repr

deriving instance DecidableEq for Except

/-- ValidationResult written onto the order: status, score, messages. -/
structure VResult where
  status : String
  score : Int
  msgs : List String
deriving DecidableEq, Repr

/-- Jaccard ratio over core-word sets as the source computes it: the
union size is replaced by 1 when empty (len(...) or 1). -/
def jaccardQ (pc dc : Finset String) : ℚ :=
  let u := (pc ∪ dc).card
  ((pc ∩ dc).card : ℚ) / ((if u = 0 then 1 else u : ℕ) : ℚ)

/-- Python round() with its round-half-to-even tie rule, composed with
int(); the values rounded by the source are nonnegative (Jaccard ratios
scaled by 100). -/
def pyRound (q : ℚ) : ℤ :=
  let f : ℤ := q.num / (q.den : ℤ)
  let r : ℚ := q - (f : ℚ)
  if r < 1/2 then f
  else if 1/2 < r then f + 1
  else if f % 2 = 0 then f else f + 1

/-- Substring containment, Python's infix in on strings. -/
def listInfix (pat l : List Char) : Bool :=
  (List.range (l.length + 1)).any (fun p => pat.isPrefixOf (l.drop p))

/-- Concatenated raw street line of the order (line 316). -/
def inStreetRaw (o : Order) : String :=
  pyStrip ((o.shipping_address1.getD "") ++ " " ++ (o.shipping_address2.getD ""))

/-- Locker shortcut test (line 319): any locker keyword occurs as a
substring of the lowered raw street line. -/
def lockerHit (raw : String) : Bool :=
  LOCKER_KEYWORDS.any (fun k => listInfix k.data (pyLower raw).data)

/-- Guard of the address2 fallback (line 342): address line 2 is present,
not whitespace and not the literal text none. -/
def a2ok (o : Order) : Bool :=
  match o.shipping_address2 with
  | none => false
  | some a2 => a2 ≠ "" && pyStrip a2 ≠ "" && pyLower a2 ≠ "none"

/-- Street parsing with the address2 fallback (lines 339-352): address2
is preferred when it supplies street and number, or when the first parse
starts with a building token. -/
def preParse (o : Order) : StreetComponents :=
  let parsed := extract_street_components (some (inStreetRaw o))
  if (parsed.street = "" || !parsed.has_number) && a2ok o then
    let parsed2 := extract_street_components o.shipping_address2
    let badStart := parsed.street ≠ "" &&
      (match pyWords parsed.street.data with
       | w :: _ => memberStr ["bl", "bloc", "sc", "scara"] (String.mk w)
       | [] => false)
    if parsed2.street ≠ "" && parsed2.has_number then parsed2
    else if badStart && parsed2.street ≠ "" then parsed2
    else parsed
  else parsed

/-- Inputs surviving the preconditions, handed to the matching strategies. -/
structure ParsedInfo where
  parsed : StreetComponents
  parsed_core : Finset String
  in_zip : String
  in_judet : String
  in_city : String

/-- Preconditions of the validator (lines 316-368): locker shortcut,
missing county/locality, missing street, missing house number; otherwise
the parsed inputs for the matching strategies. -/
def stagePre (o : Order) : Sum VResult ParsedInfo :=
  let raw := inStreetRaw o
  if lockerHit raw then
    .inl ⟨"valid", 100, ["Adresă de tip Locker/Pickup Point."]⟩
  else
    let in_zip := normalize_zip (some (pyStrip (o.shipping_zip.getD "")))
    let in_judet := o.shipping_province.getD ""
    let in_city := o.shipping_city.getD ""
    if in_judet = "" || in_city = "" then
      .inl ⟨"not_found", 0, ["Județul și/sau localitatea lipsesc."]⟩
    else
      let parsed := preParse o
      if pyStrip parsed.street = "" then
        .inl ⟨"invalid", 0, ["Adresă incompletă: lipsește strada."]⟩
      else if !parsed.has_number then
        .inl ⟨"invalid", 0, ["Adresă incompletă: lipsește numărul străzii."]⟩
      else
        .inr ⟨parsed, get_core_words parsed.street, in_zip, in_judet, in_city⟩

/-- Street display string of a nomenclature row (tip_artera plus
nume_strada, stripped), as built at lines 383, 396, 515 and 532. -/
def dbFullStreet (r : RomaniaAddress) : String :=
  pyStrip ((r.tip_artera.getD "") ++ " " ++ (r.nume_strada.getD ""))

/-- House-number adjustment shared by both strategies (lines 406-414 and
543-552): +20 capped at 100 when contained, -30 floored at 0 with a
diagnostic when outside, untouched when indeterminate. -/
def rangeAdjust (score : ℤ) (rng : Option Bool) (onum dbnum : Option String)
    (errors : List String) : ℤ × List String :=
  match rng with
  | some true => (min 100 (score + 20), errors)
  | some false =>
    let n := onum.getD ""
    let dn := dbnum.getD ""
    let msg := if optTruthy dbnum then s!"Numărul {n} este în afara intervalului {dn}."
      else s!"Numărul {n} pare în afara intervalului din nomenclator."
    (max 0 (score - 30), errors ++ [msg])
  | none => (score, errors)

/-- Fallthrough message of the postal-code strategy (line 440). -/
def zipFallthroughMsg : String :=
  "Codul poștal nu a putut fi validat pentru stradă; continui potrivirea după localitate și nume."

/-- Candidate fold of the postal-code strategy (lines 381-392).  The state
carries best score, the ratio stored with the best candidate, the best row,
and the ratio of the last row visited: the status decision at line 421
reads the leftover loop variable ratio, which after the loop holds the
last row's ratio, not the best row's. -/
def zipBest (parsed_core : Finset String) (pstreet : String)
    (rows : List RomaniaAddress) : ℚ × ℚ × Option RomaniaAddress × ℚ :=
  rows.foldl (fun st r =>
    let db_full := dbFullStreet r
    let db_core := get_core_words db_full
    let jacc := jaccardQ parsed_core db_core
    let ratio := seq_similarity pstreet db_full
    let score := jacc + (3/20 : ℚ) * ratio
    if st.1 < score then (score, ratio, some r, ratio)
    else (st.1, st.2.1, st.2.2.1, ratio)) (-1, -1, none, 0)

/-- Reference rows matching the input postal code (lines 372-377): the
code equals the normalized zip or its zero-stripped form. -/
def zipMatches (db : List RomaniaAddress) (in_zip : String) : List RomaniaAddress :=
  let cands := [in_zip, String.mk (in_zip.data.dropWhile (fun c => c = '0'))]
  db.filter (fun r =>
    match r.cod_postal with
    | some z => memberStr cands z
    | none => false)

/-- Postal-code-first strategy (lines 370-440): .inl is a final result,
.inr the accumulated error list of a fallthrough to the county strategy. -/
def stageZip (db : List RomaniaAddress) (info : ParsedInfo) :
    Sum VResult (List String) :=
  if info.in_zip = "" then .inr []
  else
    let rows := zipMatches db info.in_zip
    if rows.isEmpty then .inr [zipFallthroughMsg]
    else
      let best := zipBest info.parsed_core info.parsed.street rows
      match best.2.2.1 with
      | none => .inr [zipFallthroughMsg]
      | some db_address =>
        let lastRatio := best.2.2.2
        let db_full := dbFullStreet db_address
        let db_core := get_core_words db_full
        let jacc := jaccardQ info.parsed_core db_core
        let score0 : ℤ := pyRound (jacc * 100)
        let num_ok := number_in_range info.parsed.number db_address.numar
        let adj := rangeAdjust score0 num_ok info.parsed.number db_address.numar []
        if jacc < 1/2 then .inr (adj.2 ++ [zipFallthroughMsg])
        else
          let status :=
            if ((3/5 : ℚ) ≤ jacc ∨ ((7/10 : ℚ) ≤ lastRatio ∧ info.parsed.has_number = true))
                ∧ num_ok ≠ some false then "valid"
            else "partial_match"
          let errs1 := adj.2 ++
            (if info.parsed_core ≠ db_core then [s!"Sugestie stradă: '{db_full}'"] else [])
          let db_zip := db_address.cod_postal.getD ""
          let errs2 := errs1 ++
            (if db_zip ≠ "" then [s!"Sugestie cod poștal: {normalize_zip (some db_zip)}"] else [])
          .inl ⟨status, max 0 (min 100 adj.1), errs2⟩

/-- County lookup of the second strategy (lines 443-449): an ILIKE match
(case-insensitive equality, the pattern has no wildcards) against the
normalized county, retried against the raw county when empty. -/
def countyRows (db : List RomaniaAddress) (in_judet : String) : List RomaniaAddress :=
  let rows1 := db.filter (fun r => pyLower r.judet = pyLower (normalize in_judet))
  if rows1.isEmpty then db.filter (fun r => pyLower r.judet = pyLower in_judet)
  else rows1

/-- County stage (lines 443-454): not_found when no row carries the input
county; otherwise the county's rows. -/
def stageCounty (db : List RomaniaAddress) (info : ParsedInfo) :
    Sum VResult (List RomaniaAddress) :=
  if (countyRows db info.in_judet).isEmpty then
    let j := info.in_judet
    .inl ⟨"not_found", 0, [s!"Județul '{j}' nu a fost găsit în nomenclator."]⟩
  else .inr (countyRows db info.in_judet)

/-- Regex substitution re.sub of the city-cleanup pattern at line 456.
The raw pattern is written with doubled backslashes, so it matches a
literal backslash, any span, and a literal backslash: with at least two
backslashes in the string the greedy span from the first to the last
backslash is removed, otherwise nothing changes. -/
def removeBackslashSpans (s : String) : String :=
  let l := s.data
  let pre := l.takeWhile (fun c => c ≠ '\\')
  let rest := l.drop pre.length
  match rest with
  | [] => s
  | _ :: tail =>
    let sufRev := tail.reverse.takeWhile (fun c => c ≠ '\\')
    if sufRev.length = tail.length then s
    else String.mk (pre ++ sufRev.reverse)

/-- Prefix of a string before the first occurrence of a pattern, Python
s.split(pat)[0]. -/
def splitBeforeSub (s pat : String) : String :=
  match (List.range (s.data.length + 1)).find? (fun p => pat.data.isPrefixOf (s.data.drop p)) with
  | none => s
  | some i => String.mk (s.data.take i)

/-- Python dict insertion: a fresh key is appended, an existing key keeps
its position and takes the new value. -/
def dictInsert (m : List (String × Option String)) (k : String) (v : Option String) :
    List (String × Option String) :=
  if m.any (fun p => p.1 = k) then m.map (fun p => if p.1 = k then (k, v) else p)
  else m ++ [(k, v)]

/-- Locality dictionary of the county strategy (lines 478-480): normalized
locality name mapped to the raw locality value, in first-insertion order
with last-assignment values.  The source builds this dictionary twice with
an intermediate best-locality loop (lines 465-476) whose results are
overwritten by the second loop, so only the second computation is
modelled. -/
def cityCounts (rows : List RomaniaAddress) : List (String × Option String) :=
  rows.foldl (fun m x => dictInsert m (normalizeOpt x.localitate) x.localitate) []

/-- Normalized city key of the county strategy (line 456): backslash-span
removal, cut before a sector marker, strip, normalize. -/
def normCityOf (in_city : String) : String :=
  normalize (pyStrip (splitBeforeSub (removeBackslashSpans in_city) "sector"))

/-- Best-locality fold (lines 481-485): highest sequence similarity to the
normalized city, strict improvement only, so ties keep the earlier
locality. -/
def bestCityOf (norm_city : String) (counts : List (String × Option String)) :
    Option String × ℚ :=
  counts.foldl (fun st p =>
    let r := seq_similarity norm_city p.1
    if st.2 < r then (p.2, r) else st) ((none : Option String), (0 : ℚ))

/-- Candidate fold step of the street stage (lines 512-522): rows without
a street name are skipped, the rest are scored by Jaccard plus 0.15 times
sequence similarity, keeping the first maximum. -/
def streetStep (parsed_core : Finset String) (pstreet : String)
    (st : ℚ × Option RomaniaAddress) (r : RomaniaAddress) : ℚ × Option RomaniaAddress :=
  if !optTruthy r.nume_strada then st
  else
    let db_full := dbFullStreet r
    let db_core := get_core_words db_full
    let jacc := jaccardQ parsed_core db_core
    let ratio := seq_similarity pstreet db_full
    let score := jacc + (3/20 : ℚ) * ratio
    if st.1 < score then (score, some r) else st

/-- Street stage of the county strategy (lines 510-570): best street of
the locality, scoring, zip penalty, house-number adjustment, status
decision and suggestions. -/
def streetStage (city_rows : List RomaniaAddress) (parsed : StreetComponents)
    (parsed_core : Finset String) (in_zip : String) (errors : List String)
    (best_city : String) : VResult :=
  let best := city_rows.foldl (streetStep parsed_core parsed.street) ((-1 : ℚ), none)
  match best.2 with
  | none =>
    let ps := parsed.street
    ⟨"not_found", 0, errors ++ [s!"Nu am reușit să potrivesc strada '{ps}' în {best_city}."]⟩
  | some best_obj =>
    let db_full := dbFullStreet best_obj
    let db_core := get_core_words db_full
    let jacc := jaccardQ parsed_core db_core
    let s0 : ℤ := pyRound (jacc * 100)
    let s1 : ℤ := if in_zip ≠ "" then (s0 * 9) / 10 else s0
    let rng := number_in_range parsed.number best_obj.numar
    let adj := rangeAdjust s1 rng parsed.number best_obj.numar errors
    let status :=
      if ((3/5 : ℚ) ≤ jacc ∨ ((7/10 : ℚ) ≤ seq_similarity parsed.street db_full
            ∧ parsed.has_number = true)) ∧ rng ≠ some false then "valid"
      else "partial_match"
    let errs1 := adj.2 ++
      (if parsed_core ≠ db_core then [s!"Sugestie stradă: '{db_full}'"] else [])
    let db_zip := best_obj.cod_postal.getD ""
    let errs2 := errs1 ++
      (if db_zip ≠ "" then [s!"Sugestie cod poștal: {normalize_zip (some db_zip)}"] else [])
    ⟨status, max 0 (min 100 adj.1), errs2⟩

/-- Resolution once a locality is selected (lines 494-570): a locality
with no street-level rows is valid with score 70 on the strength of the
present street and number; otherwise the street stage decides. -/
def localityResolve (city_rows : List RomaniaAddress) (parsed : StreetComponents)
    (parsed_core : Finset String) (in_zip : String) (errors : List String)
    (best_city : String) : VResult :=
  if !(city_rows.any (fun r => optTruthy r.nume_strada)) then
    ⟨"valid", 70, ["Localitate fără nomenclator stradal: validat pe baza prezenței stradă + număr."]⟩
  else streetStage city_rows parsed parsed_core in_zip errors best_city

/-- County → locality → street strategy after the county rows are found
(lines 456-570), with the undefined name of line 461 read as the imported
regular-expression module.  The locality-extraction heuristic that would
use that match (lines 457-476) only feeds the first best-locality loop,
whose outcome is overwritten by the second loop at lines 478-485, so the
strategy's observable behaviour is the second loop's. -/
def strategy2Tail (db : List RomaniaAddress) (info : ParsedInfo)
    (errors : List String) (county_rows : List RomaniaAddress) : VResult :=
  let norm_city := normCityOf info.in_city
  let best := bestCityOf norm_city (cityCounts county_rows)
  if !optTruthy best.1 || best.2 < 1/2 then
    let c := info.in_city
    let j := info.in_judet
    ⟨"not_found", 0, [s!"Localitatea '{c}' nu a fost găsită în județul '{j}'."]⟩
  else
    let bc := best.1.getD ""
    let city_rows := db.filter (fun r =>
      pyLower r.judet = pyLower info.in_judet && r.localitate = some bc)
    localityResolve city_rows info.parsed info.parsed_core info.in_zip errors bc

/-- Faithful validator body (validate_address_for_order, lines 302-570):
a result for every path that returns before line 461, and the NameError of
the undefined name at line 461 (the module imports re, but this line reads
a name that is never bound) on every run of the county → locality → street
strategy that finds the county. -/
def runValidation (db : List RomaniaAddress) (o : Order) : Except PyErr VResult :=
  match stagePre o with
  | .inl r => .ok r
  | .inr info =>
    match stageZip db info with
    | .inl r => .ok r
    | .inr _ =>
      match stageCounty db info with
      | .inl r => .ok r
      | .inr _ => .error PyErr.nameError

/-- Validator body with the undefined name of line 461 read as the
imported module re (the evident intent: every other regex call in the
module uses re, and the module's own contract promises a result on every
path): the complete layered strategy. -/
def runValidationFixed (db : List RomaniaAddress) (o : Order) : VResult :=
  match stagePre o with
  | .inl r => r
  | .inr info =>
    match stageZip db info with
    | .inl r => r
    | .inr errors =>
      match stageCounty db info with
      | .inl r => r
      | .inr rows => strategy2Tail db info errors rows

/-- Write-back of the validation verdict onto the order (the three
attribute assignments of the source). -/
def applyResult (o : Order) (r : VResult) : Order :=
  { o with
    address_status := some r.status
    address_score := some r.score
    address_validation_errors := r.msgs }

/-- Contract of the source's validate_address_for_order: the updated order
on completed runs, the escaping Python error otherwise. -/
def validate_address_for_order (db : List RomaniaAddress) (o : Order) :
    Except PyErr Order :=
  (runValidation db o).map (applyResult o)

/-- Completed validator with line 461's name read as the module re. -/
def validate_address_for_order_fixed (db : List RomaniaAddress) (o : Order) : Order :=
  applyResult o (runValidationFixed db o)

/-- Status set of the ValidationResult contract (spec §3). -/
abbrev goodStatus (s : String) : Prop :=
  s = "valid" ∨ s = "partial_match" ∨ s = "invalid" ∨ s = "not_found"

/-- Invariant claimed for every ValidationResult: a closed status set and
a score clamped to 0..100. -/
abbrev goodResult (r : VResult) : Prop :=
  goodStatus r.status ∧ 0 ≤ r.score ∧ r.score ≤ 100

/-- Character set [a-z0-9 -] that the specification asserts for the
output of normalize. -/
def specCharOk (c : Char) : Bool :=
  isLowerAlpha c || c.isDigit || c = ' ' || c = '-'

/-- Concrete nomenclature row: county bv, locality dej, street calea sud,
no number ranges, no postal code. -/
def rowSud : RomaniaAddress :=
  { judet := "bv", localitate := some "dej", tip_artera := some "calea",
    nume_strada := some "sud", numar := none, cod_postal := none }

/-- Concrete nomenclature row for the same locality carrying a postal
code, street strada roz. -/
def rowRozZip : RomaniaAddress :=
  { judet := "bv", localitate := some "dej", tip_artera := some "strada",
    nume_strada := some "roz", numar := none, cod_postal := some "500001" }

/-- Concrete nomenclature row marking a locality with no street-level
records (all street fields null). -/
def rowBare : RomaniaAddress :=
  { judet := "bv", localitate := some "dej", tip_artera := none,
    nume_strada := none, numar := none, cod_postal := none }

/-- Concrete order with county, locality, street and number but no postal
code: the county → locality → street strategy must run on it. -/
def orderRoz : Order :=
  { name := "CMD1", shipping_address1 := some "str roz nr 3", shipping_address2 := none,
    shipping_zip := none, shipping_province := some "bv", shipping_city := some "dej",
    address_status := none, address_score := none, address_validation_errors := [] }

/-- Concrete order whose street line carries no digits at all. -/
def orderNoNum : Order :=
  { name := "CMD2", shipping_address1 := some "str roz", shipping_address2 := none,
    shipping_zip := none, shipping_province := some "bv", shipping_city := some "dej",
    address_status := none, address_score := none, address_validation_errors := [] }

/-- Concrete order carrying the postal code of rowRozZip and the matching
street, so the postal-code strategy accepts with equal postal codes. -/
def orderRozZip : Order :=
  { name := "CMD3", shipping_address1 := some "str roz nr 3", shipping_address2 := none,
    shipping_zip := some "500001", shipping_province := some "bv", shipping_city := some "dej",
    address_status := none, address_score := none, address_validation_errors := [] }

/-- Concrete locker order. -/
def orderLocker : Order :=
  { name := "CMD4", shipping_address1 := some "Easybox Str X 12", shipping_address2 := none,
    shipping_zip := none, shipping_province := some "bv", shipping_city := some "dej",
    address_status := none, address_score := none, address_validation_errors := [] }

/-- Parsed street components of orderRoz, used to exercise the street
stage directly. -/
def parsedRoz : StreetComponents :=
  { street := "str roz", number := some "3", has_number := true }

theorem jaccardQ_nonneg (pc dc : Finset String) : 0 ≤ jaccardQ pc dc := by
  unfold jaccardQ
  apply div_nonneg <;> positivity

theorem matcherRatioQ_nonneg (a b : List Char) : 0 ≤ matcherRatioQ a b := by
  unfold matcherRatioQ
  dsimp only
  split
  · norm_num
  · positivity

theorem seq_similarity_nonneg (a b : String) : 0 ≤ seq_similarity a b := by
  unfold seq_similarity
  exact matcherRatioQ_nonneg _ _

theorem streetStep_score_nonneg (pc : Finset String) (ps : String)
    (st : ℚ × Option RomaniaAddress) (r : RomaniaAddress)
    (h : optTruthy r.nume_strada = true) (hst : st.1 < 0) :
    ((streetStep pc ps st r).2).isSome := by
  unfold streetStep
  rw [h]
  simp only [Bool.not_true, Bool.false_eq_true, if_false]
  have hge : (0 : ℚ) ≤ jaccardQ pc (get_core_words (dbFullStreet r)) +
      3/20 * seq_similarity ps (dbFullStreet r) := by
    have h1 := jaccardQ_nonneg pc (get_core_words (dbFullStreet r))
    have h2 := seq_similarity_nonneg ps (dbFullStreet r)
    nlinarith
  rw [if_pos (lt_of_lt_of_le hst hge)]
  rfl

theorem streetStep_skip (pc : Finset String) (ps : String)
    (st : ℚ × Option RomaniaAddress) (r : RomaniaAddress)
    (h : optTruthy r.nume_strada = false) : streetStep pc ps st r = st := by
  unfold streetStep
  rw [h]
  rfl

theorem streetStep_preserves_some (pc : Finset String) (ps : String)
    (st : ℚ × Option RomaniaAddress) (r : RomaniaAddress)
    (h : st.2.isSome) : ((streetStep pc ps st r).2).isSome := by
  unfold streetStep
  dsimp only
  split
  · exact h
  · split
    · rfl
    · exact h

theorem foldl_streetStep_skip (pc : Finset String) (ps : String) :
    ∀ (rows : List RomaniaAddress) (st : ℚ × Option RomaniaAddress),
      (∀ r ∈ rows, optTruthy r.nume_strada = false) →
      rows.foldl (streetStep pc ps) st = st := by
  intro rows
  induction rows with
  | nil => intro st _; rfl
  | cons r rest ih =>
    intro st h
    have hr : optTruthy r.nume_strada = false := h r (List.mem_cons_self r rest)
    simp only [List.foldl_cons, streetStep_skip pc ps st r hr]
    exact ih st (fun x hx => h x (List.mem_cons_of_mem r hx))

theorem foldl_streetStep_some (pc : Finset String) (ps : String) :
    ∀ (rows : List RomaniaAddress) (st : ℚ × Option RomaniaAddress),
      st.2.isSome → ((rows.foldl (streetStep pc ps) st).2).isSome := by
  intro rows
  induction rows with
  | nil => intro st h; exact h
  | cons r rest ih =>
    intro st h
    simp only [List.foldl_cons]
    exact ih _ (streetStep_preserves_some pc ps st r h)

theorem foldl_streetStep_hit (pc : Finset String) (ps : String) :
    ∀ (rows : List RomaniaAddress) (st : ℚ × Option RomaniaAddress),
      st.1 < 0 → (∃ r ∈ rows, optTruthy r.nume_strada = true) →
      ((rows.foldl (streetStep pc ps) st).2).isSome := by
  intro rows
  induction rows with
  | nil =>
    intro st _ h
    exact absurd h (by simp)
  | cons r rest ih =>
    intro st hneg h
    simp only [List.foldl_cons]
    by_cases ht : optTruthy r.nume_strada = true
    · exact foldl_streetStep_some pc ps rest _ (streetStep_score_nonneg pc ps st r ht hneg)
    · have hf : optTruthy r.nume_strada = false := by
        cases hv : optTruthy r.nume_strada
        · rfl
        · exact absurd hv ht
      rw [streetStep_skip pc ps st r hf]
      rcases h with ⟨x, hx, hxt⟩
      rcases List.mem_cons.mp hx with hx | hx
      · subst hx; exact absurd hxt ht
      · exact ih st hneg ⟨x, hx, hxt⟩

theorem dropWhile_eq_cons_head_false (p : Char → Bool) :
    ∀ (l : List Char) (c : Char) (cs : List Char),
      l.dropWhile p = c :: cs → p c = false := by
  intro l
  induction l with
  | nil => intro c cs h; simp [List.dropWhile] at h
  | cons a l ih =>
    intro c cs h
    rw [List.dropWhile_cons] at h
    split at h
    · exact ih c cs h
    · rename_i hp
      cases h
      simpa using hp

theorem wordsF_mem_chars :
    ∀ (fuel : Nat) (l w : List Char) (c : Char),
      w ∈ wordsF fuel l → c ∈ w → c ∈ l ∧ isPySpace c = false := by
  intro fuel
  induction fuel with
  | zero => intro l w c hw _; simp [wordsF] at hw
  | succ fuel ih =>
    intro l w c hw hc
    rw [wordsF] at hw
    rcases hd : l.dropWhile isPySpace with _ | ⟨d, ds⟩
    · rw [hd] at hw; simp at hw
    · rw [hd] at hw
      dsimp only at hw
      have hsub : List.Sublist (d :: ds) l := hd ▸ List.dropWhile_sublist isPySpace
      rcases List.mem_cons.mp hw with hw | hw
      · subst hw
        rcases List.mem_cons.mp hc with hc | hc
        · subst hc
          exact ⟨hsub.subset (List.mem_cons_self _ _),
            dropWhile_eq_cons_head_false isPySpace l c ds hd⟩
        · have h1 : c ∈ ds := (List.takeWhile_sublist _).subset hc
          have h2 := List.mem_takeWhile_imp hc
          exact ⟨hsub.subset (List.mem_cons_of_mem d h1), by simpa using h2⟩
      · have hrec := ih (ds.dropWhile (fun x => !isPySpace x)) w c hw hc
        exact ⟨hsub.subset (List.mem_cons_of_mem d
          ((List.dropWhile_sublist _).subset hrec.1)), hrec.2⟩

theorem mem_joinSp :
    ∀ (ws : List (List Char)) (c : Char),
      c ∈ joinSp ws → c = ' ' ∨ ∃ w ∈ ws, c ∈ w := by
  intro ws
  induction ws with
  | nil => intro c hc; simp [joinSp] at hc
  | cons w ws ih =>
    intro c hc
    rcases ws with _ | ⟨w2, ws2⟩
    · simp only [joinSp, List.append_nil] at hc
      exact Or.inr ⟨w, List.mem_cons_self w [], hc⟩
    · simp only [joinSp] at hc
      rcases List.mem_append.mp hc with hc | hc
      · exact Or.inr ⟨w, List.mem_cons_self w _, hc⟩
      · rcases List.mem_cons.mp hc with hc | hc
        · exact Or.inl hc
        · rcases ih c hc with h | ⟨x, hx, hcx⟩
          · exact Or.inl h
          · exact Or.inr ⟨x, List.mem_cons_of_mem w hx, hcx⟩

theorem nfdAsciiChar_some_ascii (a c : Char) (h : nfdAsciiChar a = some c) :
    c.toNat ≤ 127 := by
  unfold nfdAsciiChar at h
  split_ifs at h <;> cases h <;> first | omega | decide

theorem normalize_char_facts (s : String) :
    ∀ c ∈ (normalize s).data, c.toNat ≤ 127 ∧ (isPySpace c = true → c = ' ') := by
  intro c hc
  have hc' : c ∈ collapseWs ((s.data.map pyLowerChar).filterMap nfdAsciiChar) := hc
  rcases mem_joinSp _ c hc' with h | ⟨w, hw, hcw⟩
  · subst h; exact ⟨by decide, fun _ => rfl⟩
  · have hfacts := wordsF_mem_chars _ _ w c hw hcw
    rcases List.mem_filterMap.mp hfacts.1 with ⟨a, _, ha⟩
    refine ⟨nfdAsciiChar_some_ascii a c ha, fun habs => ?_⟩
    rw [hfacts.2] at habs
    cases habs

theorem clamp_nonneg (x : ℤ) : 0 ≤ max 0 (min 100 x) :=
  le_max_left 0 _

theorem clamp_le_100 (x : ℤ) : max 0 (min 100 x) ≤ 100 :=
  max_le (by norm_num) (min_le_left _ _)

theorem stagePre_good : ∀ (o : Order) (r : VResult), stagePre o = .inl r → goodResult r := by
  intro o r h
  unfold stagePre at h
  dsimp only at h
  split at h
  · cases h; decide
  · split at h
    · cases h; decide
    · split at h
      · cases h; decide
      · split at h
        · cases h; decide
        · exact Sum.noConfusion h

theorem streetStage_good (rows : List RomaniaAddress) (parsed : StreetComponents)
    (core : Finset String) (zip : String) (errors : List String) (city : String) :
    goodResult (streetStage rows parsed core zip errors city) := by
  unfold streetStage
  dsimp only
  split
  · exact ⟨Or.inr (Or.inr (Or.inr rfl)), by norm_num, by norm_num⟩
  · refine ⟨?_, clamp_nonneg _, clamp_le_100 _⟩
    split
    · exact Or.inl rfl
    · exact Or.inr (Or.inl rfl)

theorem localityResolve_good (rows : List RomaniaAddress) (parsed : StreetComponents)
    (core : Finset String) (zip : String) (errors : List String) (city : String) :
    goodResult (localityResolve rows parsed core zip errors city) := by
  unfold localityResolve
  split
  · decide
  · exact streetStage_good rows parsed core zip errors city

theorem strategy2Tail_good (db : List RomaniaAddress) (info : ParsedInfo)
    (errors : List String) (county_rows : List RomaniaAddress) :
    goodResult (strategy2Tail db info errors county_rows) := by
  unfold strategy2Tail
  dsimp only
  split
  · exact ⟨Or.inr (Or.inr (Or.inr rfl)), by norm_num, by norm_num⟩
  · exact localityResolve_good _ _ _ _ _ _

theorem stageZip_good : ∀ (db : List RomaniaAddress) (info : ParsedInfo) (r : VResult),
    stageZip db info = .inl r → goodResult r := by
  intro db info r h
  unfold stageZip at h
  dsimp only at h
  split at h
  · exact Sum.noConfusion h
  · split at h
    · exact Sum.noConfusion h
    · split at h
      · exact Sum.noConfusion h
      · split at h
        · exact Sum.noConfusion h
        · cases h
          refine ⟨?_, clamp_nonneg _, clamp_le_100 _⟩
          split
          · exact Or.inl rfl
          · exact Or.inr (Or.inl rfl)

theorem stageCounty_good : ∀ (db : List RomaniaAddress) (info : ParsedInfo) (r : VResult),
    stageCounty db info = .inl r → goodResult r := by
  intro db info r h
  unfold stageCounty at h
  split at h
  · cases h
    exact ⟨Or.inr (Or.inr (Or.inr rfl)), by norm_num, by norm_num⟩
  · exact Sum.noConfusion h

theorem runValidationFixed_good (db : List RomaniaAddress) (o : Order) :
    goodResult (runValidationFixed db o) := by
  unfold runValidationFixed
  rcases hp : stagePre o with r | info
  · exact stagePre_good o r hp
  · dsimp only
    rcases hz : stageZip db info with r | errors
    · exact stageZip_good db info r hz
    · dsimp only
      rcases hc : stageCounty db info with r | rows
      · exact stageCounty_good db info r hc
      · exact strategy2Tail_good db info errors rows

theorem runValidation_good (db : List RomaniaAddress) (o : Order) (r : VResult)
    (h : runValidation db o = .ok r) : goodResult r := by
  unfold runValidation at h
  rcases hp : stagePre o with r2 | info
  · rw [hp] at h; dsimp only at h; cases h; exact stagePre_good o r hp
  · rw [hp] at h
    dsimp only at h
    rcases hz : stageZip db info with r2 | errors
    · rw [hz] at h; dsimp only at h; cases h; exact stageZip_good db info r hz
    · rw [hz] at h
      dsimp only at h
      rcases hc : stageCounty db info with r2 | rows
      · rw [hc] at h; dsimp only at h; cases h; exact stageCounty_good db info r hc
      · rw [hc] at h; dsimp only at h; exact Except.noConfusion h

set_option maxRecDepth 100000

/-- Claim C2 counterexample: at this concrete input the county → locality
→ street strategy selects locality dej, which has a street-level record
(calea sud), the best candidate's Jaccard ratio over core-word sets is 0,
below 0.5, and yet the returned status is partial_match together with a
street suggestion — not not_found as the claim states. -/
theorem C2_counterexample :
    optTruthy rowSud.nume_strada = true ∧
    jaccardQ (get_core_words (preParse orderRoz).street)
      (get_core_words (dbFullStreet rowSud)) < 1/2 ∧
    runValidationFixed [rowSud] orderRoz =
      ⟨"partial_match", 0, ["Sugestie stradă: 'calea sud'"]⟩ := by
  with_unfolding_all decide

/-- Claim C2 as amended: once a locality is selected, the street stage
returns not_found exactly when no row of the locality carries a street
name; whenever a street-level record exists, a best candidate always
exists, and the status is valid or partial_match by the decision rule,
never not_found — no matter how small the best Jaccard ratio is. -/
theorem C2_amended_street_stage :
    ∀ (rows : List RomaniaAddress) (parsed : StreetComponents) (core : Finset String)
      (zip : String) (errors : List String) (city : String),
      ((∀ r ∈ rows, optTruthy r.nume_strada = false) →
        (streetStage rows parsed core zip errors city).status = "not_found") ∧
      ((∃ r ∈ rows, optTruthy r.nume_strada = true) →
        (streetStage rows parsed core zip errors city).status = "valid" ∨
        (streetStage rows parsed core zip errors city).status = "partial_match") := by
  intro rows parsed core zip errors city
  constructor
  · intro h
    have hf := foldl_streetStep_skip core parsed.street rows ((-1 : ℚ), none) h
    simp only [streetStage, hf]
  · intro h
    have hs := foldl_streetStep_hit core parsed.street rows ((-1 : ℚ), none) (by norm_num) h
    obtain ⟨bo, hbo⟩ := Option.isSome_iff_exists.mp hs
    simp only [streetStage, hbo]
    split
    · exact Or.inl rfl
    · exact Or.inr rfl

/-- Witness for C2_amended_street_stage at a concrete locality with one
street-level record. -/
theorem C2_amended_witness :
    (streetStage [rowSud] parsedRoz (get_core_words parsedRoz.street) "" [] "dej").status = "valid" ∨
    (streetStage [rowSud] parsedRoz (get_core_words parsedRoz.street) "" [] "dej").status = "partial_match" :=
  (C2_amended_street_stage [rowSud] parsedRoz (get_core_words parsedRoz.street) "" [] "dej").2
    ⟨rowSud, List.mem_cons_self _ _, by decide⟩

/-- Claim C3 counterexample: the reference data carries locality dej with
no street-level record, and the input has a street phrase but no house
number; the claim predicts status invalid with score 10 and a
no-nomenclature diagnostic, but the code rejects the order up front with
score 0 and the missing-house-number message, never reaching the locality
logic. -/
theorem C3_counterexample :
    rowBare.localitate = some "dej" ∧ optTruthy rowBare.nume_strada = false ∧
    (preParse orderNoNum).street ≠ "" ∧ (preParse orderNoNum).has_number = false ∧
    runValidation [rowBare] orderNoNum =
      .ok ⟨"invalid", 0, ["Adresă incompletă: lipsește numărul străzii."]⟩ := by
  with_unfolding_all decide

/-- Claim C3 as amended: a matched locality with no street-level records
yields status valid with score 70 (the street and number are guaranteed
present at that point); an input lacking a house number never reaches the
locality logic — it is rejected by the precondition stage with status
invalid, score 0 and the missing-house-number message. -/
theorem C3_amended_paths :
    (∀ (rows : List RomaniaAddress) (parsed : StreetComponents) (core : Finset String)
       (zip : String) (errors : List String) (city : String),
       (∀ r ∈ rows, optTruthy r.nume_strada = false) →
       localityResolve rows parsed core zip errors city =
         ⟨"valid", 70,
          ["Localitate fără nomenclator stradal: validat pe baza prezenței stradă + număr."]⟩) ∧
    (∀ (db : List RomaniaAddress) (o : Order),
       lockerHit (inStreetRaw o) = false →
       o.shipping_province.getD "" ≠ "" →
       o.shipping_city.getD "" ≠ "" →
       pyStrip (preParse o).street ≠ "" →
       (preParse o).has_number = false →
       runValidation db o =
         .ok ⟨"invalid", 0, ["Adresă incompletă: lipsește numărul străzii."]⟩) := by
  constructor
  · intro rows parsed core zip errors city h
    have hany : rows.any (fun r => optTruthy r.nume_strada) = false := by
      rw [List.any_eq_false]
      intro x hx
      rw [h x hx]
      exact Bool.false_ne_true
    simp [localityResolve, hany]
  · intro db o h1 h2 h3 h4 h5
    have hpre : stagePre o =
        .inl ⟨"invalid", 0, ["Adresă incompletă: lipsește numărul străzii."]⟩ := by
      unfold stagePre
      dsimp only
      rw [if_neg (by simp [h1]), if_neg (by simp [h2, h3]), if_neg h4, if_pos (by simp [h5])]
    unfold runValidation
    rw [hpre]

/-- Witness for C3_amended_paths: both amended paths at concrete inputs. -/
theorem C3_amended_witness :
    localityResolve [rowBare] parsedRoz (get_core_words parsedRoz.street) "" [] "dej" =
      ⟨"valid", 70,
       ["Localitate fără nomenclator stradal: validat pe baza prezenței stradă + număr."]⟩ ∧
    runValidation [rowBare] orderNoNum =
      .ok ⟨"invalid", 0, ["Adresă incompletă: lipsește numărul străzii."]⟩ :=
  ⟨C3_amended_paths.1 [rowBare] parsedRoz (get_core_words parsedRoz.street) "" [] "dej"
     (by intro r hr; rw [List.mem_singleton.mp hr]; rfl),
   C3_amended_paths.2 [rowBare] orderNoNum (by with_unfolding_all decide)
     (by with_unfolding_all decide) (by with_unfolding_all decide)
     (by with_unfolding_all decide) (by with_unfolding_all decide)⟩

/-- Claim C1: the claim states that every validation with non-empty
county and locality, a parsed street and house number, no locker keyword
and no postal-code acceptance (here: no postal code at all, so the county
→ locality → street strategy runs) terminates normally in a
ValidationResult.  At this concrete input all of those premises hold, yet
the code raises NameError: line 461 reads a name that is never defined
(the module imports re, not that name), so every run of the second
strategy that finds the county aborts instead of producing a result. -/
theorem C1_strategy2_raises_nameError :
    lockerHit (inStreetRaw orderRoz) = false ∧
    orderRoz.shipping_province.getD "" ≠ "" ∧
    orderRoz.shipping_city.getD "" ≠ "" ∧
    pyStrip (preParse orderRoz).street ≠ "" ∧
    (preParse orderRoz).has_number = true ∧
    orderRoz.shipping_zip = none ∧
    validate_address_for_order [rowSud] orderRoz = .error PyErr.nameError := by
  with_unfolding_all decide

/-- Claim C4: on every completed run of the faithful validator the score
is an integer in 0..100 and the status is one of the four contract
values; the same invariant holds unconditionally for every run of the
validator with line 461's name read as the module re. -/
theorem C4_status_score_invariant :
    (∀ (db : List RomaniaAddress) (o : Order) (r : VResult),
       runValidation db o = .ok r → goodResult r) ∧
    (∀ (db : List RomaniaAddress) (o : Order), goodResult (runValidationFixed db o)) :=
  ⟨runValidation_good, runValidationFixed_good⟩

/-- Witness for C4_status_score_invariant at the locker input. -/
theorem C4_witness :
    goodResult ⟨"valid", 100, ["Adresă de tip Locker/Pickup Point."]⟩ :=
  C4_status_score_invariant.1 [] orderLocker _ (by with_unfolding_all decide)

/-- Claim C5 counterexample: the postal-code strategy accepts a candidate
whose postal code 500001 equals the input's normalized postal code, and
the postal-code suggestion is still appended — the claim states that no
suggestion is emitted when the two are equal. -/
theorem C5_counterexample :
    normalize_zip (some (pyStrip (orderRozZip.shipping_zip.getD ""))) = "500001" ∧
    rowRozZip.cod_postal = some "500001" ∧
    runValidation [rowRozZip] orderRozZip =
      .ok ⟨"valid", 100, ["Sugestie cod poștal: 500001"]⟩ := by
  with_unfolding_all decide

/-- Claim C5 as amended: in both strategies the postal-code suggestion is
appended whenever the accepted candidate's postal code is non-null and
non-empty, rendered through normalize_zip, with no comparison against the
input's postal code at all. -/
theorem C5_zip_suggestion_unconditional :
    (∀ (rows : List RomaniaAddress) (parsed : StreetComponents) (core : Finset String)
       (zip : String) (errors : List String) (city : String) (bo : RomaniaAddress) (z : String),
       (rows.foldl (streetStep core parsed.street) ((-1 : ℚ), none)).2 = some bo →
       bo.cod_postal = some z → z ≠ "" →
       s!"Sugestie cod poștal: {normalize_zip (some z)}" ∈
         (streetStage rows parsed core zip errors city).msgs) ∧
    (∀ (db : List RomaniaAddress) (info : ParsedInfo) (bo : RomaniaAddress) (z : String),
       info.in_zip ≠ "" →
       (zipBest info.parsed_core info.parsed.street (zipMatches db info.in_zip)).2.2.1 = some bo →
       ¬ (jaccardQ info.parsed_core (get_core_words (dbFullStreet bo)) < 1/2) →
       bo.cod_postal = some z → z ≠ "" →
       ∃ r, stageZip db info = .inl r ∧
         s!"Sugestie cod poștal: {normalize_zip (some z)}" ∈ r.msgs) := by
  constructor
  · intro rows parsed core zip errors city bo z hbo hz hzne
    simp only [streetStage, hbo, hz]
    simp [hzne, Option.getD]
  · intro db info bo z hzip hbo hjacc hz hzne
    unfold stageZip
    rw [if_neg hzip]
    dsimp only
    by_cases he : (zipMatches db info.in_zip).isEmpty
    · exfalso
      rw [List.isEmpty_iff.mp he] at hbo
      simp [zipBest] at hbo
    · rw [if_neg (by simp [he])]
      rw [hbo]
      dsimp only
      rw [if_neg hjacc]
      refine ⟨_, rfl, ?_⟩
      simp [hz, hzne, Option.getD]

/-- Witness for C5_zip_suggestion_unconditional applied to the street
stage at a concrete candidate that carries a postal code. -/
theorem C5_witness :
    ("Sugestie cod poștal: " ++ normalize_zip (some "500001")) ∈
      (streetStage [rowRozZip] parsedRoz (get_core_words parsedRoz.street) "" [] "dej").msgs := by
  have h := (C5_zip_suggestion_unconditional.1 [rowRozZip] parsedRoz
    (get_core_words parsedRoz.street) "" [] "dej" rowRozZip "500001"
    (by with_unfolding_all decide) rfl (by decide))
  simpa using h

/-- Claim C6 counterexample: normalize does not replace characters
outside [a-z0-9 -] with spaces — the source has no such substitution —
so normalize of b. keeps the period and the output violates the claimed
character set. -/
theorem C6_counterexample :
    normalize "b." = "b." ∧ ((normalize "b.").data.all specCharOk) = false := by
  decide

/-- Claim C6 as amended: normalize lowercases, removes diacritics through
an ASCII projection and collapses whitespace runs, so every output
character is ASCII and the only whitespace in the output is the single
space separator; punctuation such as periods and commas is preserved, not
replaced by spaces. -/
theorem C6_amended_normalize_ascii :
    ∀ s : String, ((normalize s).data.all
      (fun c => decide (c.toNat ≤ 127) && (!isPySpace c || c = ' '))) = true := by
  intro s
  rw [List.all_eq_true]
  intro c hc
  have h := normalize_char_facts s c hc
  cases hsp : isPySpace c with
  | false => simp [h.1, hsp]
  | true => simp [h.1, hsp, h.2 hsp]

/-- Claim C7: the claim (and the source's own inline comment, longest
first) says the longest guard-satisfying suffix is stripped; but the
tuple is not ordered by length: for timpurilor both ilor and the longer
urilor match with their guards satisfied, and the code strips ilor,
yielding timpur instead of timp. -/
theorem C7_not_longest_suffix :
    memberStr roSuffixes "urilor" = true ∧ memberStr roSuffixes "ilor" = true ∧
    suffixHit "timpurilor" "urilor" = true ∧ suffixHit "timpurilor" "ilor" = true ∧
    "ilor".data.length < "urilor".data.length ∧
    lemmatize_ro_token "timpurilor" = "timpur" ∧
    pyDropSuffix "timpurilor" "urilor" = "timp" ∧
    ("timpur" : String) ≠ "timp" := by
  decide

/-- Claim C8: the three house-number containment cases of the spec, token
14 in 1-25; 2-14A, token 30 outside it, and token 99 in the open-ended
71-T. -/
theorem C8_number_in_range_cases :
    number_in_range (some "14") (some "1-25; 2-14A") = some true ∧
    number_in_range (some "30") (some "1-25; 2-14A") = some false ∧
    number_in_range (some "99") (some "71-T") = some true := by
  decide

/-- Claim C9: normalization and core-word extraction are diacritic- and
case-invariant on the spec's example pair. -/
theorem C9_diacritic_invariance :
    normalize "Strada Șoșea" = normalize "strada sosea" ∧
    get_core_words "Strada Șoșea" = get_core_words "strada sosea" := by
  decide

/-- Claim C10: on every completed run the validator only writes
address_status, address_score and address_validation_errors; the name and
all shipping fields of the order are returned unchanged (the reference
rows are never touched — the validator is a pure function of the snapshot). -/
theorem C10_frame_only_three_fields :
    ∀ (db : List RomaniaAddress) (o o2 : Order),
      validate_address_for_order db o = .ok o2 →
      o2.name = o.name ∧ o2.shipping_address1 = o.shipping_address1 ∧
      o2.shipping_address2 = o.shipping_address2 ∧ o2.shipping_zip = o.shipping_zip ∧
      o2.shipping_province = o.shipping_province ∧ o2.shipping_city = o.shipping_city := by
  intro db o o2 h
  unfold validate_address_for_order at h
  cases hv : runValidation db o with
  | error e => rw [hv] at h; exact Except.noConfusion h
  | ok r =>
    rw [hv] at h
    have h2 : applyResult o r = o2 := by
      simpa [Except.map] using h
    rw [← h2]
    exact ⟨rfl, rfl, rfl, rfl, rfl, rfl⟩

/-- Witness for C10_frame_only_three_fields at the locker input. -/
theorem C10_frame_witness :
    (validate_address_for_order_fixed [] orderLocker).name = orderLocker.name ∧
    (validate_address_for_order_fixed [] orderLocker).shipping_address1 = orderLocker.shipping_address1 ∧
    (validate_address_for_order_fixed [] orderLocker).shipping_address2 = orderLocker.shipping_address2 ∧
    (validate_address_for_order_fixed [] orderLocker).shipping_zip = orderLocker.shipping_zip ∧
    (validate_address_for_order_fixed [] orderLocker).shipping_province = orderLocker.shipping_province ∧
    (validate_address_for_order_fixed [] orderLocker).shipping_city = orderLocker.shipping_city :=
  C10_frame_only_three_fields [] orderLocker (validate_address_for_order_fixed [] orderLocker)
    (by with_unfolding_all decide)

end AddressService
